import Mathlib

set_option maxRecDepth 100000

/-
Verification of the attendance-collection core of an attendance chat bot
(src/bot.py). The bot keeps a mapping from six group ids "1".."6" to an
optional attendance count, persists it to a JSON file, and broadcasts a
summary (then resets) once all six groups have reported.

The embedding below models the Python module shallowly:
  - the module-level dict `state : Dict[str, Optional[int]]` becomes an
    association list `AttendanceState` (Python dicts preserve insertion
    order; values may in principle be any JSON value, but the only
    non-integer value reachable through the handlers is `None`, so slots
    are modelled as `Option Int`, which is also enough to exhibit the
    negative-value behaviour of `load_state`);
  - `async` replies, broadcasts and `save_state` calls become explicit
    output lists in a `HandlerResult` record;
  - the persisted file is modelled by `FileContent`: missing, unreadable,
    unparsable, parsed-to-a-non-dict (where `data.get` raises and the
    `except Exception` clause fires), or parsed to a dict whose group
    values are integers or null;
  - CPython `int(str)` on base-10 ASCII input becomes `pyInt`: strip
    whitespace, optional sign, digits with single underscores between
    digits.
-/

namespace Bot

/-- Slot map of the bot: group id to optional count, in dict order.
Embeds `state : Dict[str, Optional[int]]` of src/bot.py. -/
abbrev AttendanceState := List (String × Option Int)

/-- The six group ids, embedding `GROUPS = [str(i) for i in range(1, 7)]`
(src/bot.py line 27). -/
def GROUPS : List String := (List.range 6).map (fun i => toString (i + 1))

/-- Dict lookup returning `some v` when the key is present with value `v`
(so `some none` means the key maps to Python `None`). -/
def getRaw (st : AttendanceState) (g : String) : Option (Option Int) :=
  match st with
  | [] => none
  | p :: rest => if p.1 = g then some p.2 else getRaw rest g

/-- Value of a group in the state; an absent key and a `None` value both
read as `none` (the handlers only ever see states whose key list is
exactly `GROUPS`, where the two cannot be confused). -/
def getVal (st : AttendanceState) (g : String) : Option Int :=
  match getRaw st g with
  | some v => v
  | none => none

/-- Dict assignment `state[g] = v`: replace in place when the key exists,
append otherwise (CPython dict semantics). -/
def setKey (st : AttendanceState) (g : String) (v : Option Int) : AttendanceState :=
  match st with
  | [] => [(g, v)]
  | p :: rest => if p.1 = g then (g, v) :: rest else p :: setKey rest g v

/-- Key list of the state, in dict order. -/
def keyList (st : AttendanceState) : List String :=
  st.map (fun p => p.1)

/-- The all-pending state `{g: None for g in GROUPS}`. -/
def allUnset : AttendanceState := GROUPS.map (fun g => (g, none))

/-- Completion test, embedding `all(v is not None for v in state.values())`
(src/bot.py line 85). -/
def allReported (st : AttendanceState) : Bool :=
  st.all (fun p => p.2.isSome)

/-- Sum of the slot values, embedding `sum(state.values())` (src/bot.py
line 86); a `None` slot contributes 0, but the code only sums states in
which every slot is filled. -/
def sumVals (st : AttendanceState) : Int :=
  (st.map (fun p => p.2.getD 0)).sum

/-- The loop `for g in GROUPS: state[g] = None` (src/bot.py lines 104-105). -/
def resetAll (st : AttendanceState) : AttendanceState :=
  GROUPS.foldl (fun s g => setKey s g none) st

/-! Model of CPython `int(str)` for base-10 ASCII input. -/

/-- ASCII whitespace stripped by `int()` before parsing. -/
def pyIsSpace (c : Char) : Bool :=
  c = ' ' || c = '\t' || c = '\n' || c = '\r' || c = Char.ofNat 11 || c = Char.ofNat 12

/-- Strip leading and trailing whitespace. -/
def pyStrip (l : List Char) : List Char :=
  ((l.dropWhile pyIsSpace).reverse.dropWhile pyIsSpace).reverse

/-- Tail of a digit group: digits, where each underscore must be followed
by a digit (and hence cannot be last or doubled). -/
def duTail : List Char → Bool
  | [] => true
  | c :: rest =>
    if c = '_' then
      match rest with
      | [] => false
      | d :: rest2 => d.isDigit && duTail rest2
    else
      c.isDigit && duTail rest

/-- A valid unsigned digit string for `int()`: nonempty, starts with a
digit, underscores only between digits. -/
def duOk : List Char → Bool
  | [] => false
  | c :: rest => c.isDigit && duTail rest

/-- Numeric value of a digit character. -/
def digitVal (c : Char) : Nat := c.toNat - 48

/-- Value of a digit string, ignoring underscores. -/
def duVal (l : List Char) : Nat :=
  l.foldl (fun acc c => if c = '_' then acc else acc * 10 + digitVal c) 0

/-- CPython `int(s)` on ASCII base-10 input: `some n` when the call
succeeds with value `n`, `none` when it raises `ValueError`. -/
def pyInt (s : String) : Option Int :=
  match pyStrip s.toList with
  | '+' :: rest => if duOk rest then some (Int.ofNat (duVal rest)) else none
  | '-' :: rest => if duOk rest then some (-(Int.ofNat (duVal rest))) else none
  | l => if duOk l then some (Int.ofNat (duVal l)) else none

/-! Persistence model. -/

/-- Contents of the persisted `data.json` as seen by `load_state`:
`missing` (no file), `unreadable` (open/read raises), `unparsable`
(`json.load` raises), `nonDict` (parses to a value on which `.get`
raises `AttributeError`, caught by the same `except Exception`), or
`dict kvs` (parses to an object whose values are integers or null). -/
inductive FileContent where
  | missing
  | unreadable
  | unparsable
  | nonDict
  | dict (kvs : List (String × Option Int))
deriving DecidableEq

/-- Embeds `load_state` (src/bot.py lines 30-38): on a parsed dict, take
`data.get(g)` for each group (absent key and JSON null both give `None`);
on every failure path, return the all-unset state. -/
def load_state : FileContent → AttendanceState
  | FileContent.dict kvs => GROUPS.map (fun g => (g, getVal kvs g))
  | _ => allUnset

/-! Handler outputs. -/

/-- Observable effects of one handler invocation: final in-memory state,
replies sent to the requesting chat (in order), messages successfully
delivered to the report chat, and the successive arguments of
`save_state` calls. -/
structure HandlerResult where
  state : AttendanceState
  replies : List String
  broadcasts : List String
  saves : List AttendanceState
deriving DecidableEq

/-- Reply for a wrong argument count (src/bot.py line 63). -/
def fmtMsg : String := "Formato: /asistencia <grupo> <número>  (ej: /asistencia 2 15)"

/-- Reply for a group id outside GROUPS (src/bot.py line 68). -/
def badGroupMsg : String := "Grupo inválido. Usa un número entre 1 y 6."

/-- Reply for a non-integer or negative count (src/bot.py line 76). -/
def badNumMsg : String := "El número debe ser un entero >= 0."

/-- Warning reply when delivery to the report chat fails (line 101). -/
def warnMsg : String := "⚠️ Falló el envío del reporte al chat final (ver logs)."

/-- Acknowledgment reply for an accepted report (src/bot.py line 82). -/
def ackMsg (g : String) (n : Int) : String :=
  "✅ Grupo " ++ g ++ " reportó " ++ toString n ++ " asistentes por Zoom."

/-- Python `str(x)` of a slot value as interpolated by an f-string. -/
def pyShow : Option Int → String
  | some n => toString n
  | none => "None"

/-- Concatenation of a list of strings, modelling a Python `+=` loop. -/
def strConcat : List String → String
  | [] => ""
  | s :: rest => s ++ strConcat rest

/-- The completion summary built at src/bot.py lines 87-90. -/
def resumenMsg (st : AttendanceState) : String :=
  "📊 *Resumen de asistencia por Zoom*\n\n" ++
    strConcat (GROUPS.map (fun g => "Grupo " ++ g ++ ": " ++ pyShow (getVal st g) ++ "\n")) ++
    "\n-------------------\n✅ *Total:* " ++ toString (sumVals st)

/-- Embeds `asistencia_cmd` (src/bot.py lines 61-106). `reportChat` is the
truthiness of `REPORT_CHAT_ID`; `sendOk` tells whether the send to the
report chat would succeed (when attempted). -/
def asistencia_cmd (args : List String) (reportChat sendOk : Bool)
    (st : AttendanceState) : HandlerResult :=
  match args with
  | [grupo, numero_raw] =>
    if grupo ∈ GROUPS then
      match pyInt numero_raw with
      | some numero =>
        if numero < 0 then ⟨st, [badNumMsg], [], []⟩
        else
          let st1 := setKey st grupo (some numero)
          if allReported st1 then
            let msg := resumenMsg st1
            let st2 := resetAll st1
            ⟨st2,
              [ackMsg grupo numero, msg] ++ (if reportChat && !sendOk then [warnMsg] else []),
              if reportChat && sendOk then [msg] else [],
              [st1, st2]⟩
          else
            ⟨st1, [ackMsg grupo numero], [], [st1]⟩
      | none => ⟨st, [badNumMsg], [], []⟩
    else ⟨st, [badGroupMsg], [], []⟩
  | _ => ⟨st, [fmtMsg], [], []⟩

/-- The line `/estado` prints for one group (src/bot.py lines 112-115). -/
def estadoLine (st : AttendanceState) (g : String) : String :=
  match getVal st g with
  | none => "Grupo " ++ g ++ ": ❌ pendiente\n"
  | some v => "Grupo " ++ g ++ ": ✅ " ++ toString v ++ " asistentes\n"

/-- The full `/estado` message (src/bot.py lines 110-116). -/
def estadoMsg (st : AttendanceState) : String :=
  "📌 Estado actual de reportes:\n" ++ strConcat (GROUPS.map (estadoLine st))

/-- Embeds the `estado` handler (src/bot.py lines 109-116): it only sends
one reply and touches nothing else. -/
def estado (st : AttendanceState) : HandlerResult :=
  ⟨st, [estadoMsg st], [], []⟩

/-! Startup configuration. -/

/-- Python truthiness of an optional environment variable: absent and
empty are falsy. -/
def pyTruthy : Option String → Bool
  | none => false
  | some s => !s.isEmpty

/-- Embeds the module-level startup checks (src/bot.py lines 16-24):
`raise SystemExit` when `TELEGRAM_TOKEN` is falsy, otherwise proceed
(returning whether the report chat is configured); `REPORT_CHAT_ID`
being absent only produces a warning log. -/
def startup (token reportChatId : Option String) : Except String Bool :=
  if pyTruthy token then Except.ok (pyTruthy reportChatId)
  else Except.error "TELEGRAM_TOKEN missing"

/-! Derived predicates used by the statements. -/

/-- The argument check performed by `asistencia_cmd`: exactly two
arguments, a group id in GROUPS, and a count that `int()` parses to a
non-negative value. -/
def validArgs (args : List String) : Bool :=
  match args with
  | [g, numStr] =>
    decide (g ∈ GROUPS) &&
      (match pyInt numStr with
       | some n => decide (0 ≤ n)
       | none => false)
  | _ => false

/-- A slot value is acceptable: `None` or a non-negative integer. -/
def valOk : Option Int → Bool
  | none => true
  | some n => decide (0 ≤ n)

/-- Every slot value is `None` or a non-negative integer. -/
def valuesOk (st : AttendanceState) : Bool :=
  st.all (fun p => valOk p.2)

/-- The per-group value constraint lifted to a whole file content: trivially
true on the failure contents, and elementwise `valOk` on a parsed dict. -/
def fileValuesOk : FileContent → Bool
  | FileContent.dict kvs => valuesOk kvs
  | _ => true

/-- The AttendanceState invariant of the spec: the key set is exactly the
six group ids and every value is unset or a non-negative integer. -/
def stateInv (st : AttendanceState) : Prop :=
  keyList st = GROUPS ∧ valuesOk st = true

instance (st : AttendanceState) : Decidable (stateInv st) := by
  unfold stateInv; infer_instance

/-- The `/estado` line announcing group `g` as reported with count `n`. -/
def reportedLine (g : String) (n : Int) : String :=
  "Grupo " ++ g ++ ": ✅ " ++ toString n ++ " asistentes\n"

/-- A message shows group `g` as reported with value `n` when the
corresponding status line occurs in it as a contiguous substring. -/
def showsReported (msg g : String) (n : Int) : Prop :=
  (reportedLine g n).toList <:+: msg.toList

instance (msg g : String) (n : Int) : Decidable (showsReported msg g n) := by
  unfold showsReported; infer_instance

/-- A concrete reachable state in which groups 1-5 have reported and
group 6 is still pending. -/
def fiveReported : AttendanceState :=
  [("1", some 1), ("2", some 1), ("3", some 1), ("4", some 1), ("5", some 1), ("6", none)]

/-- A concrete persisted dict in which all six groups hold values. -/
def fullKvs : List (String × Option Int) :=
  [("1", some 1), ("2", some 2), ("3", some 3), ("4", some 4), ("5", some 5), ("6", some 6)]

/-! Basic lemmas about the embedded operations. -/

theorem GROUPS_eq : GROUPS = ["1", "2", "3", "4", "5", "6"] := by decide

theorem mem_GROUPS_cases (g : String) (h : g ∈ GROUPS) :
    g = "1" ∨ g = "2" ∨ g = "3" ∨ g = "4" ∨ g = "5" ∨ g = "6" := by
  rw [GROUPS_eq] at h
  simpa using h

/-- A state whose key list is exactly GROUPS is a six-entry association
list with the group ids in order. -/
theorem keys_normal (st : AttendanceState) (h : keyList st = GROUPS) :
    ∃ v1 v2 v3 v4 v5 v6, st =
      [("1", v1), ("2", v2), ("3", v3), ("4", v4), ("5", v5), ("6", v6)] := by
  rw [GROUPS_eq] at h
  rcases st with _ | ⟨⟨k1, v1⟩, _ | ⟨⟨k2, v2⟩, _ | ⟨⟨k3, v3⟩, _ | ⟨⟨k4, v4⟩,
    _ | ⟨⟨k5, v5⟩, _ | ⟨⟨k6, v6⟩, rest⟩⟩⟩⟩⟩⟩ <;> simp [keyList] at h
  obtain ⟨rfl, rfl, rfl, rfl, rfl, rfl, hrest⟩ := h
  exact ⟨v1, v2, v3, v4, v5, v6, by rw [hrest]⟩

@[simp] theorem getVal_nil (g : String) : getVal [] g = none := rfl

@[simp] theorem getVal_cons (p : String × Option Int) (rest : AttendanceState) (g : String) :
    getVal (p :: rest) g = if p.1 = g then p.2 else getVal rest g := by
  by_cases hpg : p.1 = g <;> simp [getVal, getRaw, hpg]

theorem getVal_setKey_self (st : AttendanceState) (g : String) (v : Option Int) :
    getVal (setKey st g v) g = v := by
  induction st with
  | nil => simp [setKey]
  | cons p rest ih =>
    by_cases hpg : p.1 = g
    · simp [setKey, hpg]
    · simp [setKey, hpg, ih]

theorem getVal_setKey_ne (st : AttendanceState) (g h : String) (v : Option Int)
    (hne : h ≠ g) : getVal (setKey st g v) h = getVal st h := by
  have hgh : g ≠ h := Ne.symm hne
  induction st with
  | nil => simp [setKey, hgh]
  | cons p rest ih =>
    by_cases hpg : p.1 = g
    · have hph : p.1 ≠ h := by rw [hpg]; exact hgh
      simp [setKey, hpg, hph, hgh]
    · simp [setKey, hpg, ih]

theorem keyList_setKey (st : AttendanceState) (g : String) (v : Option Int)
    (hg : g ∈ keyList st) : keyList (setKey st g v) = keyList st := by
  induction st with
  | nil => simp [keyList] at hg
  | cons p rest ih =>
    by_cases hpg : p.1 = g
    · simp [setKey, hpg, keyList]
    · have hg2 : g ∈ keyList rest := by
        rcases (by simpa [keyList] using hg : g = p.1 ∨ g ∈ keyList rest) with h1 | h2
        · exact absurd h1.symm hpg
        · exact h2
      simp [setKey, hpg, keyList]
      simpa [keyList] using ih hg2

theorem valuesOk_nil : valuesOk [] = true := rfl

theorem valuesOk_cons (p : String × Option Int) (rest : AttendanceState) :
    valuesOk (p :: rest) = (valOk p.2 && valuesOk rest) := rfl

theorem allReported_nil : allReported [] = true := rfl

theorem allReported_cons (p : String × Option Int) (rest : AttendanceState) :
    allReported (p :: rest) = (p.2.isSome && allReported rest) := rfl

theorem valuesOk_setKey (st : AttendanceState) (g : String) (v : Option Int)
    (h : valuesOk st = true) (hv : valOk v = true) : valuesOk (setKey st g v) = true := by
  induction st with
  | nil => simp [setKey, valuesOk_cons, valuesOk_nil, hv]
  | cons p rest ih =>
    rw [valuesOk_cons, Bool.and_eq_true] at h
    by_cases hpg : p.1 = g
    · simp [setKey, hpg, valuesOk_cons, hv, h.2]
    · simp [setKey, hpg, valuesOk_cons, h.1, ih h.2]

theorem valOk_getVal (kvs : AttendanceState) (h : valuesOk kvs = true) (g : String) :
    valOk (getVal kvs g) = true := by
  induction kvs with
  | nil => rfl
  | cons p rest ih =>
    rw [valuesOk_cons, Bool.and_eq_true] at h
    by_cases hpg : p.1 = g
    · simpa [hpg] using h.1
    · simpa [hpg] using ih h.2

theorem allReported_setKey_some (st : AttendanceState) (g : String) (n : Int)
    (h : allReported st = true) : allReported (setKey st g (some n)) = true := by
  induction st with
  | nil => simp [setKey, allReported_cons, allReported_nil]
  | cons p rest ih =>
    rw [allReported_cons, Bool.and_eq_true] at h
    by_cases hpg : p.1 = g
    · simp [setKey, hpg, allReported_cons, h.2]
    · simp [setKey, hpg, allReported_cons, h.1, ih h.2]

theorem resetAll_eq (st : AttendanceState) (hk : keyList st = GROUPS) :
    resetAll st = allUnset := by
  obtain ⟨v1, v2, v3, v4, v5, v6, rfl⟩ := keys_normal st hk
  simp [resetAll, GROUPS_eq, setKey, allUnset]

theorem allUnset_inv : stateInv allUnset := by decide

/-! String-containment lemmas for the status message. -/

theorem toListAppend (a b : String) : (a ++ b).toList = a.toList ++ b.toList :=
  String.data_append a b

theorem strConcat_contains (s : String) :
    ∀ (l : List String) (hdr : String), s ∈ l →
      s.toList <:+: (hdr ++ strConcat l).toList := by
  intro l
  induction l with
  | nil => intro hdr h; cases h
  | cons a rest ih =>
    intro hdr h
    rcases List.mem_cons.mp h with rfl | h2
    · exact ⟨hdr.toList, (strConcat rest).toList,
        by simp [strConcat, toListAppend, List.append_assoc]⟩
    · have hinf := ih (hdr ++ a) h2
      have heq : ((hdr ++ a) ++ strConcat rest).toList = (hdr ++ strConcat (a :: rest)).toList := by
        simp [strConcat, toListAppend, List.append_assoc]
      rwa [heq] at hinf

/-- If a group's slot holds `some n`, the status message contains the
reported line for that group. -/
theorem estado_shows (st : AttendanceState) (g : String) (n : Int)
    (hg : g ∈ GROUPS) (hv : getVal st g = some n) :
    showsReported (estadoMsg st) g n := by
  have hline : estadoLine st g = reportedLine g n := by
    unfold estadoLine reportedLine
    rw [hv]
  have hmem : estadoLine st g ∈ GROUPS.map (estadoLine st) :=
    List.mem_map_of_mem _ hg
  have hinf := strConcat_contains (estadoLine st g) (GROUPS.map (estadoLine st))
    "📌 Estado actual de reportes:\n" hmem
  rw [hline] at hinf
  exact hinf

/-! Shape of the handler result on the accepting paths. -/

theorem accept_incomplete (st : AttendanceState) (g numStr : String) (n : Int)
    (rc ok : Bool) (hg : g ∈ GROUPS) (hp : pyInt numStr = some n) (hn : 0 ≤ n)
    (hall : allReported (setKey st g (some n)) = false) :
    asistencia_cmd [g, numStr] rc ok st =
      ⟨setKey st g (some n), [ackMsg g n], [], [setKey st g (some n)]⟩ := by
  have hnlt : ¬ n < 0 := not_lt.mpr hn
  unfold asistencia_cmd
  simp [hg, hp, hnlt, hall]

theorem accept_complete_raw (st : AttendanceState) (g numStr : String) (n : Int)
    (rc ok : Bool) (hg : g ∈ GROUPS) (hp : pyInt numStr = some n) (hn : 0 ≤ n)
    (hall : allReported (setKey st g (some n)) = true) :
    asistencia_cmd [g, numStr] rc ok st =
      ⟨resetAll (setKey st g (some n)),
        [ackMsg g n, resumenMsg (setKey st g (some n))] ++
          (if rc && !ok then [warnMsg] else []),
        if rc && ok then [resumenMsg (setKey st g (some n))] else [],
        [setKey st g (some n), resetAll (setKey st g (some n))]⟩ := by
  have hnlt : ¬ n < 0 := not_lt.mpr hn
  unfold asistencia_cmd
  simp [hg, hp, hnlt, hall]

theorem keyList_setKey_groups (st : AttendanceState) (g : String)
    (v : Option Int) (hk : keyList st = GROUPS) (hg : g ∈ GROUPS) :
    keyList (setKey st g v) = GROUPS := by
  rw [keyList_setKey st g v (by rw [hk]; exact hg), hk]

theorem accept_complete (st : AttendanceState) (g numStr : String) (n : Int)
    (rc ok : Bool) (hk : keyList st = GROUPS) (hg : g ∈ GROUPS)
    (hp : pyInt numStr = some n) (hn : 0 ≤ n)
    (hall : allReported (setKey st g (some n)) = true) :
    asistencia_cmd [g, numStr] rc ok st =
      ⟨allUnset,
        [ackMsg g n, resumenMsg (setKey st g (some n))] ++
          (if rc && !ok then [warnMsg] else []),
        if rc && ok then [resumenMsg (setKey st g (some n))] else [],
        [setKey st g (some n), allUnset]⟩ := by
  have hreset : resetAll (setKey st g (some n)) = allUnset :=
    resetAll_eq _ (keyList_setKey_groups st g _ hk hg)
  rw [accept_complete_raw st g numStr n rc ok hg hp hn hall, hreset]

theorem sumVals_six (st : AttendanceState) (hk : keyList st = GROUPS) :
    sumVals st =
      (getVal st "1").getD 0 + (getVal st "2").getD 0 + (getVal st "3").getD 0 +
        (getVal st "4").getD 0 + (getVal st "5").getD 0 + (getVal st "6").getD 0 := by
  obtain ⟨v1, v2, v3, v4, v5, v6, rfl⟩ := keys_normal st hk
  simp [sumVals]
  ring

theorem load_keyList (fc : FileContent) : keyList (load_state fc) = GROUPS := by
  cases fc with
  | dict kvs =>
    show List.map (fun p => p.1) (List.map (fun g => (g, getVal kvs g)) GROUPS) = GROUPS
    rw [List.map_map]
    exact List.map_id GROUPS
  | missing => decide
  | unreadable => decide
  | unparsable => decide
  | nonDict => decide

theorem allReported_getVal (st : AttendanceState) (hk : keyList st = GROUPS)
    (hall : allReported st = true) (g : String) (hg : g ∈ GROUPS) :
    (getVal st g).isSome = true := by
  obtain ⟨v1, v2, v3, v4, v5, v6, rfl⟩ := keys_normal st hk
  simp [allReported_cons, allReported_nil] at hall
  rcases mem_GROUPS_cases g hg with rfl | rfl | rfl | rfl | rfl | rfl <;> simp [hall]

/-! Claim theorems. -/

/-- Claim C1, counterexample. The claim asserts that a valid report for
group g with count n followed by a status query always shows g as
reported with value n, with no precondition on the other groups. It fails
when the report fills the last pending slot: starting from `fiveReported`
(groups 1-5 reported, group 6 pending), the valid report `/asistencia 6 0`
completes the round, the state is reset, and the following `/estado`
message does not show group 6 as reported with 0 — it shows it pending. -/
theorem c1_counterexample :
    validArgs ["6", "0"] = true ∧ stateInv fiveReported ∧
    (estado ((asistencia_cmd ["6", "0"] true true fiveReported).state)).replies =
      [estadoMsg ((asistencia_cmd ["6", "0"] true true fiveReported).state)] ∧
    ¬ showsReported
        (estadoMsg ((asistencia_cmd ["6", "0"] true true fiveReported).state)) "6" 0 :=
  ⟨by decide, by decide, rfl, by decide⟩

/-- Claim C1, amended. A valid report for group g with count n followed
by a status query shows g as reported with value n, provided the report
does not fill the last pending slot (otherwise the cycle completes and
every group reverts to pending first). -/
theorem c1_report_then_status (st : AttendanceState) (g numStr : String) (n : Int)
    (rc ok : Bool) (hg : g ∈ GROUPS) (hp : pyInt numStr = some n) (hn : 0 ≤ n)
    (hall : allReported (setKey st g (some n)) = false) :
    getVal ((asistencia_cmd [g, numStr] rc ok st).state) g = some n ∧
    (estado ((asistencia_cmd [g, numStr] rc ok st).state)).replies =
      [estadoMsg ((asistencia_cmd [g, numStr] rc ok st).state)] ∧
    showsReported (estadoMsg ((asistencia_cmd [g, numStr] rc ok st).state)) g n := by
  rw [accept_incomplete st g numStr n rc ok hg hp hn hall]
  exact ⟨getVal_setKey_self st g (some n), rfl,
    estado_shows _ g n hg (getVal_setKey_self st g (some n))⟩

/-- Witness for C1: reporting 12 for group 3 from the all-pending state,
the status message shows group 3 as reported with 12. -/
theorem c1_report_then_status_witness :
    showsReported (estadoMsg ((asistencia_cmd ["3", "12"] true true allUnset).state)) "3" 12 :=
  (c1_report_then_status allUnset "3" "12" 12 true true (by decide) (by decide)
    (by decide) (by decide)).2.2

/-- Claim C2: when a valid report fills the last pending slot, the
summary's total is the exact integer sum of the six reported values (each
slot is indeed filled), the summary is the second reply, every group is
reset to pending, and the all-unset state is the last state persisted. -/
theorem c2_completion_total_and_reset (st : AttendanceState) (g numStr : String)
    (n : Int) (rc ok : Bool) (hk : keyList st = GROUPS) (hg : g ∈ GROUPS)
    (hp : pyInt numStr = some n) (hn : 0 ≤ n)
    (hall : allReported (setKey st g (some n)) = true) :
    (asistencia_cmd [g, numStr] rc ok st).state = allUnset ∧
    (asistencia_cmd [g, numStr] rc ok st).saves = [setKey st g (some n), allUnset] ∧
    ((asistencia_cmd [g, numStr] rc ok st).replies)[1]? =
      some (resumenMsg (setKey st g (some n))) ∧
    (∀ g2, g2 ∈ GROUPS → (getVal (setKey st g (some n)) g2).isSome = true) ∧
    sumVals (setKey st g (some n)) =
      (getVal (setKey st g (some n)) "1").getD 0 +
        (getVal (setKey st g (some n)) "2").getD 0 +
        (getVal (setKey st g (some n)) "3").getD 0 +
        (getVal (setKey st g (some n)) "4").getD 0 +
        (getVal (setKey st g (some n)) "5").getD 0 +
        (getVal (setKey st g (some n)) "6").getD 0 ∧
    (∃ pre, resumenMsg (setKey st g (some n)) =
      pre ++ toString (sumVals (setKey st g (some n)))) := by
  have hk1 : keyList (setKey st g (some n)) = GROUPS :=
    keyList_setKey_groups st g _ hk hg
  rw [accept_complete st g numStr n rc ok hk hg hp hn hall]
  refine ⟨rfl, rfl, ?_, fun g2 hg2 => allReported_getVal _ hk1 hall g2 hg2,
    sumVals_six _ hk1, ⟨_, rfl⟩⟩
  cases hcase : (rc && !ok) <;> simp [hcase]

/-- Witness for C2: filling the last slot from `fiveReported` with
`/asistencia 6 0` resets the state and persists the reset. -/
theorem c2_completion_total_and_reset_witness :
    (asistencia_cmd ["6", "0"] true true fiveReported).state = allUnset ∧
    (asistencia_cmd ["6", "0"] true true fiveReported).saves =
      [setKey fiveReported "6" (some 0), allUnset] :=
  ⟨(c2_completion_total_and_reset fiveReported "6" "0" 0 true true (by decide)
      (by decide) (by decide) (by decide) (by decide)).1,
   (c2_completion_total_and_reset fiveReported "6" "0" 0 true true (by decide)
      (by decide) (by decide) (by decide) (by decide)).2.1⟩

/-- Claim C3: every invalid `/asistencia` invocation — wrong argument
count, group id outside "1".."6", or a count that `int()` rejects or that
is negative — produces exactly one rejection reply and leaves the state
untouched, with no `save_state` call and no broadcast. -/
theorem c3_invalid_rejected (args : List String) (rc ok : Bool)
    (st : AttendanceState) (hva : validArgs args = false) :
    ∃ m, (m = fmtMsg ∨ m = badGroupMsg ∨ m = badNumMsg) ∧
      asistencia_cmd args rc ok st = ⟨st, [m], [], []⟩ := by
  rcases args with _ | ⟨a, _ | ⟨b, _ | ⟨c, rest⟩⟩⟩
  · exact ⟨fmtMsg, Or.inl rfl, rfl⟩
  · exact ⟨fmtMsg, Or.inl rfl, rfl⟩
  · by_cases hg : a ∈ GROUPS
    · cases hpy : pyInt b with
      | none =>
        refine ⟨badNumMsg, Or.inr (Or.inr rfl), ?_⟩
        unfold asistencia_cmd
        simp [hg, hpy]
      | some m =>
        have hm : m < 0 := by
          rw [validArgs] at hva
          simp [hg, hpy] at hva
          omega
        refine ⟨badNumMsg, Or.inr (Or.inr rfl), ?_⟩
        unfold asistencia_cmd
        simp [hg, hpy, hm]
    · refine ⟨badGroupMsg, Or.inr (Or.inl rfl), ?_⟩
      unfold asistencia_cmd
      simp [hg]
  · exact ⟨fmtMsg, Or.inl rfl, rfl⟩

/-- Witness for C3: `/asistencia 7 3` is rejected with the invalid-group
reply and the all-pending state is untouched. -/
theorem c3_invalid_rejected_witness :
    validArgs ["7", "3"] = false ∧
    ∃ m, (m = fmtMsg ∨ m = badGroupMsg ∨ m = badNumMsg) ∧
      asistencia_cmd ["7", "3"] true true allUnset = ⟨allUnset, [m], [], []⟩ :=
  ⟨by decide, c3_invalid_rejected ["7", "3"] true true allUnset (by decide)⟩

/-- Claim C4: `load_state` is total (never propagates an exception) and
returns the all-unset state on every failing file content: missing file,
unreadable file, content that fails to parse, and content that parses to
a non-dict (where the `.get` access raises and is caught). -/
theorem c4_load_state_fails_open :
    load_state FileContent.missing = allUnset ∧
    load_state FileContent.unreadable = allUnset ∧
    load_state FileContent.unparsable = allUnset ∧
    load_state FileContent.nonDict = allUnset :=
  ⟨rfl, rfl, rfl, rfl⟩

/-- Claim C5, counterexample. The claim asserts the state invariant for
the result of `load_state` on every input file content, but `load_state`
does not validate values: a file parsing to the dict with entry
`"1": -5` loads a state holding the negative value -5, which violates
the values part of the invariant. -/
theorem c5_counterexample :
    ¬ stateInv (load_state (FileContent.dict [("1", some (-5))])) := by decide

/-- Claim C5, amended. The key set of the state is always exactly the six
group ids: `load_state` guarantees it for every file content, and the
handlers preserve it. The value part of the invariant (unset or a
non-negative integer) is preserved by the report handler and the status
handler, and holds for the loaded state whenever every value in the
persisted dict is itself null or a non-negative integer — but not for
arbitrary file contents. -/
theorem c5_invariant :
    (∀ fc, keyList (load_state fc) = GROUPS) ∧
    (∀ fc, fileValuesOk fc = true → stateInv (load_state fc)) ∧
    (∀ args rc ok st, stateInv st → stateInv ((asistencia_cmd args rc ok st).state)) ∧
    (∀ st, stateInv st → stateInv ((estado st).state)) := by
  refine ⟨load_keyList, ?_, ?_, fun st h => h⟩
  · intro fc hval
    cases fc with
    | dict kvs =>
      refine ⟨load_keyList _, ?_⟩
      show (List.map (fun g => (g, getVal kvs g)) GROUPS).all (fun p => valOk p.2) = true
      rw [List.all_eq_true]
      intro p hp
      obtain ⟨g, hg, rfl⟩ := List.mem_map.mp hp
      exact valOk_getVal kvs hval g
    | missing => exact allUnset_inv
    | unreadable => exact allUnset_inv
    | unparsable => exact allUnset_inv
    | nonDict => exact allUnset_inv
  · intro args rc ok st hinv
    rcases args with _ | ⟨a, _ | ⟨b, _ | ⟨c, rest⟩⟩⟩
    · exact hinv
    · exact hinv
    · by_cases hg : a ∈ GROUPS
      · cases hpy : pyInt b with
        | none =>
          unfold asistencia_cmd
          simpa [hg, hpy] using hinv
        | some m =>
          by_cases hm : m < 0
          · unfold asistencia_cmd
            simpa [hg, hpy, hm] using hinv
          · have hn : 0 ≤ m := not_lt.mp hm
            by_cases hall : allReported (setKey st a (some m)) = true
            · rw [accept_complete st a b m rc ok hinv.1 hg hpy hn hall]
              exact allUnset_inv
            · have hall2 : allReported (setKey st a (some m)) = false := by
                cases h2 : allReported (setKey st a (some m))
                · rfl
                · exact absurd h2 hall
              rw [accept_incomplete st a b m rc ok hg hpy hn hall2]
              exact ⟨keyList_setKey_groups st a _ hinv.1 hg,
                valuesOk_setKey st a _ hinv.2 (by simp [valOk, hn])⟩
      · unfold asistencia_cmd
        simpa [hg] using hinv
    · exact hinv

/-- Witness for C5: the invariant holds for a state loaded from a
well-valued dict and is preserved by a concrete report. -/
theorem c5_invariant_witness :
    stateInv (load_state (FileContent.dict [("2", some 3), ("9", some 4)])) ∧
    stateInv ((asistencia_cmd ["1", "4"] true true allUnset).state) :=
  ⟨c5_invariant.2.1 (FileContent.dict [("2", some 3), ("9", some 4)]) (by decide),
   c5_invariant.2.2.1 ["1", "4"] true true allUnset (by decide)⟩

/-- Claim C6: when the report chat is configured but delivery to it
fails, the user gets the warning reply, and the completion transition is
exactly as in the successful case: same final state (all pending) and the
same two persisted states, ending with the all-unset state; only the
delivered broadcast is missing. -/
theorem c6_broadcast_failure_no_rollback (st : AttendanceState) (g numStr : String)
    (n : Int) (hk : keyList st = GROUPS) (hg : g ∈ GROUPS)
    (hp : pyInt numStr = some n) (hn : 0 ≤ n)
    (hall : allReported (setKey st g (some n)) = true) :
    warnMsg ∈ (asistencia_cmd [g, numStr] true false st).replies ∧
    (asistencia_cmd [g, numStr] true false st).state =
      (asistencia_cmd [g, numStr] true true st).state ∧
    (asistencia_cmd [g, numStr] true false st).saves =
      (asistencia_cmd [g, numStr] true true st).saves ∧
    (asistencia_cmd [g, numStr] true false st).state = allUnset ∧
    (asistencia_cmd [g, numStr] true false st).saves =
      [setKey st g (some n), allUnset] ∧
    (asistencia_cmd [g, numStr] true false st).broadcasts = [] := by
  rw [accept_complete st g numStr n true false hk hg hp hn hall,
    accept_complete st g numStr n true true hk hg hp hn hall]
  refine ⟨?_, rfl, rfl, rfl, rfl, rfl⟩
  simp

/-- Witness for C6: failing delivery on the completing report
`/asistencia 6 0` from `fiveReported` still resets and persists. -/
theorem c6_broadcast_failure_no_rollback_witness :
    warnMsg ∈ (asistencia_cmd ["6", "0"] true false fiveReported).replies ∧
    (asistencia_cmd ["6", "0"] true false fiveReported).state = allUnset :=
  ⟨(c6_broadcast_failure_no_rollback fiveReported "6" "0" 0 (by decide) (by decide)
      (by decide) (by decide) (by decide)).1,
   (c6_broadcast_failure_no_rollback fiveReported "6" "0" 0 (by decide) (by decide)
      (by decide) (by decide) (by decide)).2.2.2.1⟩

/-- Claim C7: startup fails when the bot token is absent or empty, and
proceeds when a non-empty token is present even with no report chat id
configured. -/
theorem c7_startup_requires_token :
    (∀ rc, startup none rc = Except.error "TELEGRAM_TOKEN missing") ∧
    (∀ rc, startup (some "") rc = Except.error "TELEGRAM_TOKEN missing") ∧
    (∀ t : String, t ≠ "" → startup (some t) none = Except.ok false) := by
  refine ⟨fun rc => rfl, fun rc => rfl, fun t ht => ?_⟩
  have he : t.isEmpty = false := by
    cases he2 : t.isEmpty
    · rfl
    · exact absurd ((String.isEmpty_iff t).mp he2) ht
  simp [startup, pyTruthy, he]

/-- Witness for C7: a concrete non-empty token starts up with no report
chat configured. -/
theorem c7_startup_requires_token_witness :
    startup (some "x") none = Except.ok false ∧
    startup none (some "123") = Except.error "TELEGRAM_TOKEN missing" :=
  ⟨c7_startup_requires_token.2.2 "x" (by decide),
   c7_startup_requires_token.1 (some "123")⟩

/-- Claim C8: the status query is read-only: it returns the state
unchanged, persists nothing, broadcasts nothing, and only sends the
rendering of the current state. -/
theorem c8_estado_readonly (st : AttendanceState) :
    (estado st).state = st ∧ (estado st).saves = [] ∧
    (estado st).broadcasts = [] ∧ (estado st).replies = [estadoMsg st] :=
  ⟨rfl, rfl, rfl, rfl⟩

/-- Claim C9: count validation follows `int()` parsing: any string that
`int()` parses to a non-negative value is accepted (the acknowledgment
is sent and the updated state is saved), `"+5"` parses to 5 and
`"1_000"` to 1000, while the group id must be one of the six literal
strings, so `"01"` is rejected as a group even though `int()` accepts
it as 1. -/
theorem c9_pyint_parsing (st : AttendanceState) (g numStr : String) (n : Int)
    (rc ok : Bool) (hg : g ∈ GROUPS) (hp : pyInt numStr = some n) (hn : 0 ≤ n) :
    ((asistencia_cmd [g, numStr] rc ok st).replies).head? = some (ackMsg g n) ∧
    ((asistencia_cmd [g, numStr] rc ok st).saves).head? =
      some (setKey st g (some n)) ∧
    pyInt "+5" = some 5 ∧ pyInt "1_000" = some 1000 ∧
    "01" ∉ GROUPS ∧ pyInt "01" = some 1 ∧
    (∀ st2 rc2 ok2, asistencia_cmd ["01", "5"] rc2 ok2 st2 =
      ⟨st2, [badGroupMsg], [], []⟩) := by
  refine ⟨?_, ?_, by decide, by decide, by decide, by decide, fun st2 rc2 ok2 => ?_⟩
  · by_cases hall : allReported (setKey st g (some n)) = true
    · rw [accept_complete_raw st g numStr n rc ok hg hp hn hall]
      rfl
    · have hall2 : allReported (setKey st g (some n)) = false := by
        cases h2 : allReported (setKey st g (some n))
        · rfl
        · exact absurd h2 hall
      rw [accept_incomplete st g numStr n rc ok hg hp hn hall2]
      rfl
  · by_cases hall : allReported (setKey st g (some n)) = true
    · rw [accept_complete_raw st g numStr n rc ok hg hp hn hall]
      rfl
    · have hall2 : allReported (setKey st g (some n)) = false := by
        cases h2 : allReported (setKey st g (some n))
        · rfl
        · exact absurd h2 hall
      rw [accept_incomplete st g numStr n rc ok hg hp hn hall2]
      rfl
  · unfold asistencia_cmd
    simp [GROUPS_eq]

/-- Witness for C9: `/asistencia 2 +5` is accepted as a report of 5 for
group 2 from the all-pending state. -/
theorem c9_pyint_parsing_witness :
    ((asistencia_cmd ["2", "+5"] true true allUnset).replies).head? =
      some (ackMsg "2" 5) :=
  (c9_pyint_parsing allUnset "2" "+5" 5 true true (by decide) (by decide)
    (by decide)).1

/-- Claim C10: a state loaded from storage with all six groups already
reported triggers nothing by itself — the status query returns it
unchanged with no broadcast and no save — and the next valid report then
produces the completion summary as the second reply, resets every group
to pending, and persists the reset. -/
theorem c10_completion_only_on_report (kvs : List (String × Option Int))
    (g numStr : String) (n : Int) (rc ok : Bool)
    (hfull : allReported (load_state (FileContent.dict kvs)) = true)
    (hg : g ∈ GROUPS) (hp : pyInt numStr = some n) (hn : 0 ≤ n) :
    (estado (load_state (FileContent.dict kvs))).state =
      load_state (FileContent.dict kvs) ∧
    (estado (load_state (FileContent.dict kvs))).saves = [] ∧
    (estado (load_state (FileContent.dict kvs))).broadcasts = [] ∧
    (asistencia_cmd [g, numStr] rc ok (load_state (FileContent.dict kvs))).state =
      allUnset ∧
    ((asistencia_cmd [g, numStr] rc ok (load_state (FileContent.dict kvs))).replies)[1]? =
      some (resumenMsg (setKey (load_state (FileContent.dict kvs)) g (some n))) ∧
    (asistencia_cmd [g, numStr] rc ok (load_state (FileContent.dict kvs))).saves =
      [setKey (load_state (FileContent.dict kvs)) g (some n), allUnset] := by
  have hk : keyList (load_state (FileContent.dict kvs)) = GROUPS :=
    load_keyList (FileContent.dict kvs)
  have hall2 : allReported
      (setKey (load_state (FileContent.dict kvs)) g (some n)) = true :=
    allReported_setKey_some _ g n hfull
  rw [accept_complete _ g numStr n rc ok hk hg hp hn hall2]
  refine ⟨rfl, rfl, rfl, rfl, ?_, rfl⟩
  cases hcase : (rc && !ok) <;> simp [hcase]

/-- Witness for C10: loading a fully-reported dict and then reporting 7
for group 3 resets all groups. -/
theorem c10_completion_only_on_report_witness :
    (asistencia_cmd ["3", "7"] true true (load_state (FileContent.dict fullKvs))).state =
      allUnset :=
  (c10_completion_only_on_report fullKvs "3" "7" 7 true true (by decide) (by decide)
    (by decide) (by decide)).2.2.2.1

end Bot
